import Mathlib

/-!
# ocserv: the shared declarations of `src/vpn.h`

A shallow embedding of the constants, enumerations, helper macros and the
configuration record declared in `src/vpn.h`, followed by the properties
that the server's design document states about them.

C preprocessor constants become `def`s of type `Nat` (or `Int` where the C
value is negative), written with the same operators as the C expression.
Enumerations become inductive types with a function giving each enumerator
its C value, where an enumerator without an initialiser takes the value of
its predecessor plus one, as in C.
-/

namespace Ocserv

/-! ## Compression thresholds (vpn.h, lines 59-60) -/

def MIN_NO_COMPRESS_LIMIT : Nat := 64
def DEFAULT_NO_COMPRESS_LIMIT : Nat := 256

/-! ## Tunnel packet type tags (vpn.h, lines 69-75) -/

/-- Uncompressed data. -/
def AC_PKT_DATA : Nat := 0
/-- Dead Peer Detection. -/
def AC_PKT_DPD_OUT : Nat := 3
/-- DPD response. -/
def AC_PKT_DPD_RESP : Nat := 4
/-- Client disconnection notice. -/
def AC_PKT_DISCONN : Nat := 5
/-- Keepalive. -/
def AC_PKT_KEEPALIVE : Nat := 7
/-- Compressed data. -/
def AC_PKT_COMPRESSED : Nat := 8
/-- Server kick. -/
def AC_PKT_TERM_SERVER : Nat := 9

/-- The seven packet tags, in the order of their definition. -/
def AC_PKT_tags : List Nat :=
  [AC_PKT_DATA, AC_PKT_DPD_OUT, AC_PKT_DPD_RESP, AC_PKT_DISCONN,
   AC_PKT_KEEPALIVE, AC_PKT_COMPRESSED, AC_PKT_TERM_SERVER]

/-! ## Authentication type bitmasks (vpn.h, lines 82-88) -/

/-- The generic bit, for the methods that require a username and password. -/
def AUTH_TYPE_USERNAME_PASS : Nat := 1 <<< 0
def AUTH_TYPE_PAM : Nat := 1 <<< 1 ||| AUTH_TYPE_USERNAME_PASS
def AUTH_TYPE_PLAIN : Nat := 1 <<< 2 ||| AUTH_TYPE_USERNAME_PASS
def AUTH_TYPE_CERTIFICATE : Nat := 1 <<< 3
def AUTH_TYPE_RADIUS : Nat := 1 <<< 5 ||| AUTH_TYPE_USERNAME_PASS
def AUTH_TYPE_GSSAPI : Nat := 1 <<< 6

/-- The five authentication method masks, in the order of their definition. -/
def AUTH_TYPE_methods : List Nat :=
  [AUTH_TYPE_PAM, AUTH_TYPE_PLAIN, AUTH_TYPE_CERTIFICATE, AUTH_TYPE_RADIUS,
   AUTH_TYPE_GSSAPI]

/-- Whether the mask `m` has any bit of `b` set, the C test `(m & b) != 0`. -/
def hasBit (m b : Nat) : Bool := (m &&& b) != 0

/-! ## Error and status codes (vpn.h, lines 90-104) -/

def ERR_SUCCESS : Int := 0
def ERR_BAD_COMMAND : Int := -2
def ERR_AUTH_FAIL : Int := -3
def ERR_AUTH_CONTINUE : Int := -4
def ERR_WAIT_FOR_SCRIPT : Int := -5
def ERR_MEM : Int := -6
def ERR_READ_CONFIG : Int := -7
def ERR_NO_IP : Int := -8
def ERR_PARSING : Int := -9
def ERR_EXEC : Int := -10
def ERR_PEER_TERMINATED : Int := -11
def ERR_CTL : Int := -12
def ERR_NO_CMD_FD : Int := -13

def ERR_WORKER_TERMINATED : Int := ERR_PEER_TERMINATED

/-- The codes other than `ERR_SUCCESS`, in the order of their definition. -/
def ERR_failures : List Int :=
  [ERR_BAD_COMMAND, ERR_AUTH_FAIL, ERR_AUTH_CONTINUE, ERR_WAIT_FOR_SCRIPT,
   ERR_MEM, ERR_READ_CONFIG, ERR_NO_IP, ERR_PARSING, ERR_EXEC,
   ERR_PEER_TERMINATED, ERR_CTL, ERR_NO_CMD_FD]

/-- All thirteen codes, `ERR_SUCCESS` first. -/
def ERR_codes : List Int := ERR_SUCCESS :: ERR_failures

/-! ## Session control and sizes -/

/-- Seconds allowed prior to cleaning up entries (vpn.h, lines 109-112). -/
def AUTH_SLACK_TIME : Nat := 10

def MAX_CIPHERSUITE_NAME : Nat := 64
def SID_SIZE : Nat := 16

def MAX_BANNER_SIZE : Nat := 256
def MAX_USERNAME_SIZE : Nat := 64
def MAX_AGENT_NAME : Nat := 48
def MAX_PASSWORD_SIZE : Nat := 64
def TLS_MASTER_SIZE : Nat := 48
def MAX_HOSTNAME_SIZE : Nat := MAX_USERNAME_SIZE
def MAX_GROUPNAME_SIZE : Nat := MAX_USERNAME_SIZE
def MAX_SESSION_DATA_SIZE : Nat := 4 * 1024

/-! ## IPC commands (vpn.h, lines 118-140) -/

/-- The enumeration `cmd_request_t`. -/
inductive cmd_request_t where
  | AUTH_COOKIE_REP
  | AUTH_COOKIE_REQ
  | RESUME_STORE_REQ
  | RESUME_DELETE_REQ
  | RESUME_FETCH_REQ
  | RESUME_FETCH_REP
  | CMD_UDP_FD
  | CMD_TUN_MTU
  | CMD_TERMINATE
  | CMD_SESSION_INFO
  | CMD_CLI_STATS
  | SM_CMD_AUTH_INIT
  | SM_CMD_AUTH_CONT
  | SM_CMD_AUTH_REP
  | SM_CMD_DECRYPT
  | SM_CMD_SIGN
  | SM_CMD_AUTH_SESSION_OPEN
  | SM_CMD_AUTH_SESSION_CLOSE
  | SM_CMD_AUTH_SESSION_REPLY
  | SM_CMD_CLI_STATS
  deriving DecidableEq, Repr

/-- The C value of each enumerator. The first twelve carry an explicit
initialiser; each of the eight after `SM_CMD_AUTH_INIT = 120` has none and so
is one more than the enumerator before it. -/
def cmd_request_t.val : cmd_request_t → Nat
  | .AUTH_COOKIE_REP => 2
  | .AUTH_COOKIE_REQ => 4
  | .RESUME_STORE_REQ => 6
  | .RESUME_DELETE_REQ => 7
  | .RESUME_FETCH_REQ => 8
  | .RESUME_FETCH_REP => 9
  | .CMD_UDP_FD => 10
  | .CMD_TUN_MTU => 11
  | .CMD_TERMINATE => 12
  | .CMD_SESSION_INFO => 13
  | .CMD_CLI_STATS => 15
  | .SM_CMD_AUTH_INIT => 120
  | .SM_CMD_AUTH_CONT => 120 + 1
  | .SM_CMD_AUTH_REP => 120 + 1 + 1
  | .SM_CMD_DECRYPT => 120 + 1 + 1 + 1
  | .SM_CMD_SIGN => 120 + 1 + 1 + 1 + 1
  | .SM_CMD_AUTH_SESSION_OPEN => 120 + 1 + 1 + 1 + 1 + 1
  | .SM_CMD_AUTH_SESSION_CLOSE => 120 + 1 + 1 + 1 + 1 + 1 + 1
  | .SM_CMD_AUTH_SESSION_REPLY => 120 + 1 + 1 + 1 + 1 + 1 + 1 + 1
  | .SM_CMD_CLI_STATS => 120 + 1 + 1 + 1 + 1 + 1 + 1 + 1 + 1

/-- The security-module commands, in the order of their declaration. -/
def SM_CMD_commands : List cmd_request_t :=
  [.SM_CMD_AUTH_INIT, .SM_CMD_AUTH_CONT, .SM_CMD_AUTH_REP, .SM_CMD_DECRYPT,
   .SM_CMD_SIGN, .SM_CMD_AUTH_SESSION_OPEN, .SM_CMD_AUTH_SESSION_CLOSE,
   .SM_CMD_AUTH_SESSION_REPLY, .SM_CMD_CLI_STATS]

/-! ## Configuration (vpn.h, lines 210-335) -/

def MAX_AUTH_METHODS : Nat := 4

/-- The record `auth_struct_st`. The pointer `amod` to the method's module
table is kept as an optional index. -/
structure auth_struct_st where
  name : String
  additional : Option String
  type : Nat
  amod : Option Nat
  enabled : Bool

/-- The fields of `struct cfg_st` that concern authentication methods and
compression. The C member `auth_struct_st auth[MAX_AUTH_METHODS]` is an array
of fixed length, here a table indexed by `Fin MAX_AUTH_METHODS`. -/
structure cfg_st where
  auth : Fin MAX_AUTH_METHODS → auth_struct_st
  auth_methods : Nat
  enable_compression : Nat
  /-- Under this size (in bytes) of data there will be no compression. -/
  no_compress_limit : Nat

/-- The slots of the method table of a configuration, in index order. -/
def cfg_st.auth_slots (c : cfg_st) : List auth_struct_st := List.ofFn c.auth

/-! ## The TOS helper macros (vpn.h, lines 373-376)

The argument is an unsigned 32-bit value, so the left shift is reduced
modulo `2^32`. -/

/-- `#define TOS_PACK(x) (x<<4)` -/
def TOS_PACK (x : Nat) : Nat := (x <<< 4) % 2 ^ 32

/-- `#define TOS_UNPACK(x) (x>>4)` -/
def TOS_UNPACK (x : Nat) : Nat := x >>> 4

/-- `#define IS_TOS(x) ((x&0x0f)==0)` -/
def IS_TOS (x : Nat) : Bool := (x &&& 0x0f) == 0

/-! ## The packet framing codec

`vpn.h` declares only the packet type tags; the functions that frame and parse
tunnel packets live in files that are not part of this development. They are
modelled here from the design document (sections 3 and 4.1). The compressor
(LZ4 or LZS) is external to the codec and is taken as a parameter. -/

/-- Modelled from the spec: the tunnel packet, "a typed record
(data/compressed-data/keepalive/DPD/DPD-response/disconnect/server-kick)".
Only the two data types carry a payload; the bodies of the other five are
of zero length. A `compressed` packet holds the payload before compression. -/
inductive Packet where
  | data (payload : List UInt8)
  | compressed (payload : List UInt8)
  | keepalive
  | dpd_out
  | dpd_resp
  | disconn
  | term_server
  deriving DecidableEq

/-- Modelled from the spec: the type tag of a packet, one of the `AC_PKT_*`
constants of `vpn.h`. -/
def Packet.tag : Packet → Nat
  | .data _ => AC_PKT_DATA
  | .compressed _ => AC_PKT_COMPRESSED
  | .keepalive => AC_PKT_KEEPALIVE
  | .dpd_out => AC_PKT_DPD_OUT
  | .dpd_resp => AC_PKT_DPD_RESP
  | .disconn => AC_PKT_DISCONN
  | .term_server => AC_PKT_TERM_SERVER

/-- Modelled from the spec: the only error of the decoder. -/
inductive DecodeError where
  | MalformedPacket
  deriving DecidableEq

/-- Modelled from the spec: a compressor negotiated for a session, one of the
"pluggable byte-stream transforms" whose implementation is out of scope. -/
structure Compressor where
  compress : List UInt8 → List UInt8
  decompress : List UInt8 → Option (List UInt8)

/-- A compressor is lossless when decompression undoes compression. -/
def Compressor.Lossless (c : Compressor) : Prop :=
  ∀ p, c.decompress (c.compress p) = some p

/-- Modelled from the spec: the explicit coding of one length of a compressed
frame. The design document fixes that the two lengths are coded in the frame,
not their format. The coding here is part of the framing and has a code for
every length: groups of seven bits, the lowest group first, the high bit of a
byte set when another byte follows. -/
def putLength (n : Nat) : List UInt8 :=
  if n < 128 then [UInt8.ofNat n]
  else UInt8.ofNat (n % 128 + 128) :: putLength (n / 128)
termination_by n
decreasing_by omega

/-- Modelled from the spec: reads one coded length from the front of the
input and returns it with the bytes that follow; `none` when the input ends
before the code does. -/
def getLength : List UInt8 → Option (Nat × List UInt8)
  | [] => none
  | b :: rest =>
    if b.toNat < 128 then some (b.toNat, rest)
    else
      match getLength rest with
      | none => none
      | some (m, r) => some (b.toNat - 128 + 128 * m, r)

/-- Modelled from the spec: `encode(packet) -> bytes`. The first byte is the
packet type. For `DATA` the raw payload follows. For `COMPRESSED` the frame
carries the original and the compressed length, then the output of the
session's compressor `c`, which no other type consults. The other types have
a body of zero length. -/
def encode (c : Compressor) : Packet → List UInt8
  | .data payload => UInt8.ofNat AC_PKT_DATA :: payload
  | .compressed payload =>
    UInt8.ofNat AC_PKT_COMPRESSED ::
      (putLength payload.length ++
        (putLength (c.compress payload).length ++ c.compress payload))
  | .keepalive => [UInt8.ofNat AC_PKT_KEEPALIVE]
  | .dpd_out => [UInt8.ofNat AC_PKT_DPD_OUT]
  | .dpd_resp => [UInt8.ofNat AC_PKT_DPD_RESP]
  | .disconn => [UInt8.ofNat AC_PKT_DISCONN]
  | .term_server => [UInt8.ofNat AC_PKT_TERM_SERVER]

/-- Modelled from the spec: the body of a `COMPRESSED` frame is parsed into
the payload it was made from. It is malformed when a length cannot be read,
when fewer bytes follow than the compressed length announces, when the
compressor rejects them, or when the result has not the original length. -/
def decodeCompressed (c : Compressor) (body : List UInt8) :
    Except DecodeError Packet :=
  match getLength body with
  | none => .error .MalformedPacket
  | some (origLen, r1) =>
    match getLength r1 with
    | none => .error .MalformedPacket
    | some (compLen, r2) =>
      if r2.length < compLen then .error .MalformedPacket
      else
        match c.decompress (r2.take compLen) with
        | none => .error .MalformedPacket
        | some payload =>
          if payload.length = origLen then .ok (.compressed payload)
          else .error .MalformedPacket

/-- Modelled from the spec: `decode(bytes) -> packet | error`. The first byte
selects the type. `negotiated` is the compressor of the session, `none` when
the session negotiated no compression, in which case a compressed packet is
rejected and every other type is decoded as on any session. Decoding fails
with `MalformedPacket` on an unknown type byte or a truncated body, an empty
input included. -/
def decode (negotiated : Option Compressor) :
    List UInt8 → Except DecodeError Packet
  | [] => .error .MalformedPacket
  | t :: body =>
    if t.toNat = AC_PKT_DATA then .ok (.data body)
    else if t.toNat = AC_PKT_COMPRESSED then
      match negotiated with
      | none => .error .MalformedPacket
      | some c => decodeCompressed c body
    else if t.toNat = AC_PKT_KEEPALIVE then .ok .keepalive
    else if t.toNat = AC_PKT_DPD_OUT then .ok .dpd_out
    else if t.toNat = AC_PKT_DPD_RESP then .ok .dpd_resp
    else if t.toNat = AC_PKT_DISCONN then .ok .disconn
    else if t.toNat = AC_PKT_TERM_SERVER then .ok .term_server
    else .error .MalformedPacket

/-! ### Two concrete compressors -/

/-- The compressor that stores its input unchanged. -/
def storeCompressor : Compressor where
  compress := fun p => p
  decompress := fun p => some p

/-- A compressor that drops its input, and so is not lossless. -/
def dropCompressor : Compressor where
  compress := fun _ => []
  decompress := fun _ => some []

/-! ## Properties of the constants -/

/-- C1: the tunnel packet type tags are DATA = 0, DPD_OUT = 3, DPD_RESP = 4,
DISCONN = 5, KEEPALIVE = 7, COMPRESSED = 8 and TERM_SERVER = 9; the seven tags
are pairwise distinct and each of them fits in one byte. -/
theorem AC_PKT_tag_values :
    AC_PKT_DATA = 0 ∧ AC_PKT_DPD_OUT = 3 ∧ AC_PKT_DPD_RESP = 4 ∧
    AC_PKT_DISCONN = 5 ∧ AC_PKT_KEEPALIVE = 7 ∧ AC_PKT_COMPRESSED = 8 ∧
    AC_PKT_TERM_SERVER = 9 ∧
    AC_PKT_tags.length = 7 ∧ AC_PKT_tags.Nodup ∧
    ∀ t ∈ AC_PKT_tags, t < 256 := by
  decide

/-- C2: the IPC commands have the values AUTH_COOKIE_REQ = 4,
AUTH_COOKIE_REP = 2, RESUME_STORE_REQ = 6, RESUME_DELETE_REQ = 7,
RESUME_FETCH_REQ = 8, RESUME_FETCH_REP = 9, CMD_UDP_FD = 10, CMD_TUN_MTU = 11,
CMD_TERMINATE = 12, CMD_SESSION_INFO = 13, CMD_CLI_STATS = 15; the nine
security-module commands are numbered 120, 121, ..., 128 in the order of their
declaration; and no two commands share a value. -/
theorem cmd_request_t_values :
    cmd_request_t.AUTH_COOKIE_REQ.val = 4 ∧
    cmd_request_t.AUTH_COOKIE_REP.val = 2 ∧
    cmd_request_t.RESUME_STORE_REQ.val = 6 ∧
    cmd_request_t.RESUME_DELETE_REQ.val = 7 ∧
    cmd_request_t.RESUME_FETCH_REQ.val = 8 ∧
    cmd_request_t.RESUME_FETCH_REP.val = 9 ∧
    cmd_request_t.CMD_UDP_FD.val = 10 ∧
    cmd_request_t.CMD_TUN_MTU.val = 11 ∧
    cmd_request_t.CMD_TERMINATE.val = 12 ∧
    cmd_request_t.CMD_SESSION_INFO.val = 13 ∧
    cmd_request_t.CMD_CLI_STATS.val = 15 ∧
    SM_CMD_commands.map cmd_request_t.val =
      [120, 121, 122, 123, 124, 125, 126, 127, 128] ∧
    Function.Injective cmd_request_t.val := by
  refine ⟨rfl, rfl, rfl, rfl, rfl, rfl, rfl, rfl, rfl, rfl, rfl, rfl, ?_⟩
  intro a b h
  cases a <;> cases b <;> first | rfl | exact absurd h (by decide)

/-- C3: the status codes are SUCCESS = 0, BAD_COMMAND = -2, AUTH_FAIL = -3,
AUTH_CONTINUE = -4, WAIT_FOR_SCRIPT = -5, MEM = -6, READ_CONFIG = -7,
NO_IP = -8, PARSING = -9, EXEC = -10, PEER_TERMINATED = -11, CTL = -12 and
NO_CMD_FD = -13; every code other than SUCCESS is negative, the thirteen
codes are pairwise distinct, a code is 0 exactly when it is SUCCESS, and
WORKER_TERMINATED is the same code as PEER_TERMINATED. -/
theorem ERR_code_values :
    ERR_SUCCESS = 0 ∧ ERR_BAD_COMMAND = -2 ∧ ERR_AUTH_FAIL = -3 ∧
    ERR_AUTH_CONTINUE = -4 ∧ ERR_WAIT_FOR_SCRIPT = -5 ∧ ERR_MEM = -6 ∧
    ERR_READ_CONFIG = -7 ∧ ERR_NO_IP = -8 ∧ ERR_PARSING = -9 ∧
    ERR_EXEC = -10 ∧ ERR_PEER_TERMINATED = -11 ∧ ERR_CTL = -12 ∧
    ERR_NO_CMD_FD = -13 ∧
    (∀ c ∈ ERR_failures, c < 0) ∧
    ERR_codes.length = 13 ∧ ERR_codes.Nodup ∧
    (∀ c ∈ ERR_codes, c = 0 ↔ c = ERR_SUCCESS) ∧
    ERR_WORKER_TERMINATED = ERR_PEER_TERMINATED := by
  decide

/-- C4: the sizing constants are SID_SIZE = 16, TLS_MASTER_SIZE = 48,
MAX_USERNAME_SIZE = MAX_HOSTNAME_SIZE = MAX_GROUPNAME_SIZE = 64,
MAX_PASSWORD_SIZE = 64, MAX_BANNER_SIZE = 256 and
MAX_SESSION_DATA_SIZE = 4096. -/
theorem sizing_constant_values :
    SID_SIZE = 16 ∧ TLS_MASTER_SIZE = 48 ∧ MAX_USERNAME_SIZE = 64 ∧
    MAX_HOSTNAME_SIZE = 64 ∧ MAX_GROUPNAME_SIZE = 64 ∧
    MAX_PASSWORD_SIZE = 64 ∧ MAX_BANNER_SIZE = 256 ∧
    MAX_SESSION_DATA_SIZE = 4096 := by
  decide

/-- C5: the default no-compress threshold is 256 and the minimum is 64, so the
default is not below the minimum. -/
theorem no_compress_limit_values :
    DEFAULT_NO_COMPRESS_LIMIT = 256 ∧ MIN_NO_COMPRESS_LIMIT = 64 ∧
    MIN_NO_COMPRESS_LIMIT ≤ DEFAULT_NO_COMPRESS_LIMIT := by
  decide

/-- C6: MAX_AUTH_METHODS is 4 and the method table of every configuration has
exactly MAX_AUTH_METHODS slots. -/
theorem cfg_st_auth_slots_length :
    MAX_AUTH_METHODS = 4 ∧
    ∀ c : cfg_st, c.auth_slots.length = MAX_AUTH_METHODS := by
  refine ⟨rfl, fun c => ?_⟩
  simp only [cfg_st.auth_slots, List.length_ofFn]

/-- C7: the slack time kept before entries are cleaned up is 10 seconds. -/
theorem AUTH_SLACK_TIME_value : AUTH_SLACK_TIME = 10 := by
  decide

/-- C10: the username/password bit, of value 1, is set in PAM (3), PLAIN (5)
and RADIUS (33) and in no other method, being clear in CERTIFICATE (8) and
GSSAPI (64); the five method masks are pairwise distinct; and each method has
a bit that is set in its own mask and in the mask of no other method. -/
theorem AUTH_TYPE_bitmasks :
    AUTH_TYPE_USERNAME_PASS = 1 ∧ AUTH_TYPE_PAM = 3 ∧ AUTH_TYPE_PLAIN = 5 ∧
    AUTH_TYPE_RADIUS = 33 ∧ AUTH_TYPE_CERTIFICATE = 8 ∧ AUTH_TYPE_GSSAPI = 64 ∧
    (∀ m ∈ AUTH_TYPE_methods, hasBit m AUTH_TYPE_USERNAME_PASS = true ↔
      (m = AUTH_TYPE_PAM ∨ m = AUTH_TYPE_PLAIN ∨ m = AUTH_TYPE_RADIUS)) ∧
    hasBit AUTH_TYPE_CERTIFICATE AUTH_TYPE_USERNAME_PASS = false ∧
    hasBit AUTH_TYPE_GSSAPI AUTH_TYPE_USERNAME_PASS = false ∧
    AUTH_TYPE_methods.length = 5 ∧ AUTH_TYPE_methods.Nodup ∧
    (∀ m ∈ AUTH_TYPE_methods, ∃ k, k < 32 ∧ hasBit m (1 <<< k) = true ∧
      ∀ n ∈ AUTH_TYPE_methods, n ≠ m → hasBit n (1 <<< k) = false) := by
  decide

/-! ## The TOS macros -/

/-- Shifting a value below `2^28` left by four bits stays below `2^32`. -/
theorem TOS_PACK_eq_mul (x : Nat) (h : x < 2 ^ 28) : TOS_PACK x = x * 16 := by
  unfold TOS_PACK
  rw [Nat.shiftLeft_eq]
  apply Nat.mod_eq_of_lt
  omega

/-- C9: for an unsigned 32-bit value x below 2^28, TOS_PACK(x) is recognised
by IS_TOS and TOS_UNPACK(TOS_PACK(x)) is x. -/
theorem TOS_UNPACK_TOS_PACK (x : Nat) (h : x < 2 ^ 28) :
    IS_TOS (TOS_PACK x) = true ∧ TOS_UNPACK (TOS_PACK x) = x := by
  rw [TOS_PACK_eq_mul x h]
  constructor
  · have hm : x * 16 &&& 0x0f = x * 16 % 16 :=
      Nat.and_pow_two_sub_one_eq_mod (x * 16) 4
    have hz : x * 16 &&& 0x0f = 0 := by
      rw [hm]
      omega
    simp [IS_TOS, hz]
  · unfold TOS_UNPACK
    rw [Nat.shiftRight_eq_div_pow]
    omega

/-- The round trip of C9 at the largest value that the shift does not
truncate. -/
theorem TOS_UNPACK_TOS_PACK_witness :
    268435455 < 2 ^ 28 ∧ IS_TOS (TOS_PACK 268435455) = true ∧
    TOS_UNPACK (TOS_PACK 268435455) = 268435455 :=
  ⟨by decide, TOS_UNPACK_TOS_PACK 268435455 (by decide)⟩

/-! ## The packet framing codec: round trip -/

/-- A coded length is read back, and the bytes behind it are left in place. -/
theorem getLength_putLength (n : Nat) (rest : List UInt8) :
    getLength (putLength n ++ rest) = some (n, rest) := by
  induction n using Nat.strong_induction_on with
  | _ n ih =>
    rw [putLength]
    by_cases h : n < 128
    · have hb : (UInt8.ofNat n).toNat = n :=
        UInt8.toNat_ofNat_of_lt (Nat.lt_trans h (by decide))
      rw [if_pos h, List.singleton_append, getLength, hb, if_pos h]
    · have hlt : n % 128 + 128 < UInt8.size := by
        have : UInt8.size = 256 := rfl
        omega
      have hb : (UInt8.ofNat (n % 128 + 128)).toNat = n % 128 + 128 :=
        UInt8.toNat_ofNat_of_lt hlt
      have hge : ¬ (n % 128 + 128 < 128) := by omega
      rw [if_neg h, List.cons_append, getLength, hb, if_neg hge,
        ih (n / 128) (by omega)]
      have hn : n % 128 + 128 - 128 + 128 * (n / 128) = n := by omega
      simp only [hn]

/-- The body of a compressed frame, as the encoder lays it out, parses back
into the payload it was made from. -/
theorem decodeCompressed_body (c : Compressor) (hc : c.Lossless)
    (payload : List UInt8) :
    decodeCompressed c
      (putLength payload.length ++
        (putLength (c.compress payload).length ++ c.compress payload)) =
      .ok (.compressed payload) := by
  unfold decodeCompressed
  rw [getLength_putLength payload.length]
  simp only
  rw [getLength_putLength (c.compress payload).length (c.compress payload)]
  simp only [Nat.lt_irrefl, if_false, List.take_length, hc payload, if_true]

/-- The storing compressor is lossless. -/
theorem storeCompressor_lossless : storeCompressor.Lossless := by
  intro p
  rfl

/-- C8: decoding the encoding of a packet returns that packet. For DATA,
KEEPALIVE, DPD_OUT, DPD_RESP, DISCONN and TERM_SERVER this holds on every
session, whatever compressor the encoder and the decoder hold and also when
the session negotiated no compression. For COMPRESSED it holds on a session
with a fixed compressor that is lossless, and on such a session it holds for
all seven types. -/
theorem decode_encode (c : Compressor) (p : Packet) :
    (p.tag ≠ AC_PKT_COMPRESSED →
      ∀ negotiated : Option Compressor, decode negotiated (encode c p) = .ok p) ∧
    (c.Lossless → decode (some c) (encode c p) = .ok p) := by
  have ht : ¬ ((UInt8.ofNat AC_PKT_COMPRESSED).toNat = AC_PKT_DATA) := by decide
  have hk : (UInt8.ofNat AC_PKT_COMPRESSED).toNat = AC_PKT_COMPRESSED := by decide
  cases p with
  | data payload => exact ⟨fun _ _ => rfl, fun _ => rfl⟩
  | compressed payload =>
    refine ⟨fun h => absurd rfl h, fun hc => ?_⟩
    simp only [encode, decode, ht, hk, if_false, if_true]
    exact decodeCompressed_body c hc payload
  | keepalive => exact ⟨fun _ _ => rfl, fun _ => rfl⟩
  | dpd_out => exact ⟨fun _ _ => rfl, fun _ => rfl⟩
  | dpd_resp => exact ⟨fun _ _ => rfl, fun _ => rfl⟩
  | disconn => exact ⟨fun _ _ => rfl, fun _ => rfl⟩
  | term_server => exact ⟨fun _ _ => rfl, fun _ => rfl⟩

/-- The round trip of C8 at concrete packets: a data packet on a session
without compression, encoded by a side that holds a compressor that is not
lossless, and a compressed packet of three bytes with the storing
compressor. -/
theorem decode_encode_witness :
    (Packet.data [10, 20, 30]).tag ≠ AC_PKT_COMPRESSED ∧
    decode none (encode dropCompressor (.data [10, 20, 30])) =
      .ok (.data [10, 20, 30]) ∧
    storeCompressor.Lossless ∧
    decode (some storeCompressor)
      (encode storeCompressor (.compressed [10, 20, 30])) =
      .ok (.compressed [10, 20, 30]) :=
  ⟨by decide,
   (decode_encode dropCompressor (.data [10, 20, 30])).1 (by decide) none,
   storeCompressor_lossless,
   (decode_encode storeCompressor (.compressed [10, 20, 30])).2
     storeCompressor_lossless⟩

/-! ## The decoder rejects what the design document says it rejects -/

/-- A compressed packet is rejected on a session that negotiated no
compression. -/
theorem decode_compressed_no_compression (body : List UInt8) :
    decode none (UInt8.ofNat AC_PKT_COMPRESSED :: body) =
      .error .MalformedPacket := by
  rfl

/-- The empty input and an input whose first byte is no packet tag are
malformed. -/
theorem decode_malformed (n : Option Compressor) (body : List UInt8) :
    decode n [] = .error .MalformedPacket ∧
    decode n (1 :: body) = .error .MalformedPacket ∧
    decode n (6 :: body) = .error .MalformedPacket := by
  refine ⟨rfl, rfl, rfl⟩

/-- A compressed frame that ends before its announced length is malformed:
the frame below announces three compressed bytes and carries two. -/
theorem decode_truncated :
    decode (some storeCompressor) [8, 3, 3, 10, 20] =
      .error .MalformedPacket := by
  rfl

/-- The coded form of the lengths 5 and 300. -/
theorem putLength_examples :
    putLength 5 = [5] ∧ putLength 300 = [172, 2] := by
  constructor
  · rw [putLength]
    rfl
  · rw [putLength, putLength]
    rfl

/-- Beyond the bound of C9 the shift loses bits: packing `2^28` yields 0. -/
theorem TOS_PACK_truncates : TOS_UNPACK (TOS_PACK (2 ^ 28)) = 0 := by
  decide

end Ocserv
